import Mathlib

/-!
Verification of the instance-provisioning workflow of `lxc init`
(`src/lxc/init.go`): the `create` orchestrator, the `guessImage`
heuristic and the `checkNetwork` post-creation validator.

The Go code is shallowly embedded as pure Lean functions.  All remote
interactions (server connection, network / storage-pool / image lookups,
creation calls, operation tracking) are parametrised by an oracle
structure `Srv` whose fields give the response of each remote endpoint.
Every function additionally returns the ordered list of remote calls it
performed (`Call`) and the advisory messages it printed on the error
channel (`Msg`), so that claims about "no remote call is made" or
"an advisory is emitted" can be stated directly.
-/

namespace LxcInit

/-- Errors surfaced by the workflow.  Client-side errors are the exact
error sites of `create` / `Run`; `srv n` stands for an arbitrary error
returned by a remote endpoint (the oracle chooses `n`). -/
inductive Err where
  /-- line 120: `--empty cannot be combined with an image name` -/
  | emptyWithImage : Err
  /-- line 185: `Bad key=value pair: %s` -/
  | badKeyValue (entry : String) : Err
  /-- line 313: `Didn't get any affected image, container or snapshot from server` -/
  | noContainers : Err
  /-- `conf.ParseRemote`: unknown remote name before the colon -/
  | unknownRemote (name : String) : Err
  /-- `CheckArgs`: too many positional arguments -/
  | tooManyArgs : Err
  /-- stdin could not be read or parsed -/
  | stdinParse : Err
  /-- `conf.GetInstanceServer`: the remote is not an instance server -/
  | notInstanceServer (name : String) : Err
  /-- an error produced by a remote endpoint, tagged by the oracle -/
  | srv (n : Nat) : Err
  deriving DecidableEq, Repr

/-- Messages printed on the error channel (stderr). -/
inductive Msg where
  /-- lines 350/354: the local image could not be found, retrying with
  `head` as a remote; `rest = none` for the single-field case. -/
  | localImageNotFound (image head : String) (rest : Option String) : Msg
  /-- line 370: the container has no network attached -/
  | containerNoNetwork : Msg
  /-- line 371: hint `lxc network create` -/
  | hintCreateNetwork : Msg
  /-- line 372: hint `lxc network attach` -/
  | hintAttachNetwork : Msg
  deriving DecidableEq, Repr

/-- A device description: `map[string]string` in Go. -/
abbrev Device := List (String × String)

/-- A device map: `map[string]map[string]string` in Go. -/
abbrev DevMap := List (String × Device)

/-- `api.Network` (the single field the code reads). -/
structure Network where
  type : String
  deriving DecidableEq, Repr

/-- `api.ImageAliasesEntry` (the single field the code reads). -/
structure ImageAlias where
  target : String
  deriving DecidableEq, Repr

/-- `api.Image` (the fields the code reads or builds). -/
structure Image where
  fingerprint : String := ""
  public : Bool := false
  deriving DecidableEq, Repr

/-- The source descriptor of `api.InstancesPost` (`req.Source`). -/
structure InstanceSource where
  type : String := ""
  aliasName : String := ""
  deriving DecidableEq, Repr

/-- `api.InstancesPost`: the creation request.  `profiles = none` models
the Go `nil` slice, distinct from `some []` (a set, empty list). -/
structure InstancesPost where
  name : String := ""
  instanceType : String := ""
  config : List (String × String) := []
  devices : DevMap := []
  profiles : Option (List String) := none
  ephemeral : Bool := false
  source : InstanceSource := {}
  deriving DecidableEq, Repr

/-- `api.InstancePut` as read from stdin (the fields `create` uses).
`profiles = none` models a Go `nil` slice (field absent),
`some xs` an explicitly supplied list. -/
structure InstancePut where
  config : List (String × String) := []
  devices : DevMap := []
  profiles : Option (List String) := none
  deriving DecidableEq, Repr

/-- `api.Operation` (the field the code reads: the resource map). -/
structure Operation where
  resources : List (String × List String) := []
  deriving DecidableEq, Repr

/-- `api.Instance` (the field `checkNetwork` reads). -/
structure Instance where
  expandedDevices : DevMap := []
  deriving DecidableEq, Repr

/-- The command's flags (`cmdInit` fields). -/
structure Flags where
  config : List String := []
  ephemeral : Bool := false
  network : String := ""
  profile : List String := []
  storage : String := ""
  target : String := ""
  type : String := ""
  noProfiles : Bool := false
  empty : Bool := false

/-- The client configuration: the remote map (`conf.Remotes`, name to
protocol tag) and the default remote used by `ParseRemote`. -/
structure Config where
  remotes : List (String × String) := []
  defaultRemote : String := ""

/-- Protocol of a remote: Go map indexing `conf.Remotes[name].Protocol`
yields the zero value `""` for a missing key. -/
def Config.protocol (conf : Config) (name : String) : String :=
  (conf.remotes.lookup name).getD ""

/-- One remote call, in the order `create` / `guessImage` /
`checkNetwork` perform them.  Image lookups are tagged with the name of
the remote whose server handle they go through. -/
inductive Call where
  | getInstanceServer (remote : String) : Call
  | getNetwork (name : String) : Call
  | getStoragePool (name : String) : Call
  | getImageServer (remote : String) : Call
  | getImageAlias (remote name : String) : Call
  | getImage (remote name : String) : Call
  | createInstanceFromImage (imgRemote : String) (img : Image) (req : InstancesPost) : Call
  | createInstance (req : InstancesPost) : Call
  | getInstance (name : String) : Call
  deriving DecidableEq, Repr

/-- The remote-service oracle: the response of every endpoint the
workflow can hit.  Image lookups take the remote name first (which
server handle the call goes through). -/
structure Srv where
  getInstanceServer : String → Except Err Unit
  getNetwork : String → Except Err Network
  getStoragePool : String → Except Err Unit
  getImageServer : String → Except Err Unit
  getImageAlias : String → String → Except Err ImageAlias
  getImage : String → String → Except Err Image
  createInstanceFromImage : String → Image → InstancesPost → Except Err Unit
  addHandler : Except Err Unit
  cancelableWait : Except Err Unit
  getTarget : Except Err Operation
  createInstance : InstancesPost → Except Err Operation
  getInstance : String → Except Err Instance

/-- Split a character list at the first occurrence of `c`:
`some (before, after)` when `c` occurs, `none` otherwise. -/
def breakAtChar : List Char → Char → Option (List Char × List Char)
  | [], _ => none
  | x :: xs, c =>
    if x = c then some ([], xs)
    else
      match breakAtChar xs c with
      | none => none
      | some (pre, post) => some (x :: pre, post)

/-- Go `strings.SplitN s sep 2` for a one-character separator `sep`:
`[before, after-first]` when the separator occurs, `[s]` otherwise
(in particular `[""]` for the empty string). -/
def splitN2 (s : String) (c : Char) : List String :=
  match breakAtChar s.toList c with
  | none => [s]
  | some (pre, post) => [String.mk pre, String.mk post]

/-- Go `strings.Contains s sep` for a one-character `sep`. -/
def containsChar (s : String) (c : Char) : Bool :=
  s.toList.contains c

/-- Go map assignment `m[k] = v`: set key `k` to `v`, overwriting. -/
def mapSet {α : Type} (m : List (String × α)) (k : String) (v : α) :
    List (String × α) :=
  (k, v) :: m.filter (fun p => p.1 ≠ k)

/-- Go `strings.Split l sep` for a one-character separator, on
character lists: always a non-empty list of fields. -/
def splitChar : List Char → Char → List (List Char)
  | [], _ => [[]]
  | x :: xs, c =>
    match splitChar xs c, decide (x = c) with
    | r, true => [] :: r
    | [], false => [[x]]
    | y :: ys, false => (x :: y) :: ys

/-- Last `/`-separated segment: Go
`fields := strings.Split(s, "/"); fields[len(fields)-1]`. -/
def lastSeg (s : String) : String :=
  String.mk ((splitChar s.toList '/').getLastD [])

/-- Modelled from the spec: `conf.ParseRemote` (package `lxc/config`,
not under `src/`).  Per §4.4, a token is `remote:name` or bare `name`;
with no colon (in particular the empty token) both remote and name
resolve to the configured defaults: the default remote and the token
itself.  A colon-qualified token must name a configured remote. -/
def Config.parseRemote (conf : Config) (s : String) :
    Except Err (String × String) :=
  if containsChar s ':' then
    match splitN2 s ':' with
    | [h, r] =>
        if (conf.remotes.lookup h).isSome then .ok (h, r)
        else .error (.unknownRemote h)
    | _ => .error (.unknownRemote s)
  else .ok (conf.defaultRemote, s)

/-- The four names `create` derives from the positional arguments
(lines 77–80: all start as the empty string). -/
structure ParsedNames where
  remote : String := ""
  name : String := ""
  iremote : String := ""
  image : String := ""
  deriving DecidableEq, Repr

/-- Lines 99–135 of `create`: parse the positional arguments, then
apply the `--empty` handling (mutual-exclusion check, default remote
for zero arguments, image/name switch for one argument). -/
def parseArgs (conf : Config) (emptyFlag : Bool) (args : List String) :
    Except Err ParsedNames :=
  let step1 : Except Err ParsedNames :=
    match args with
    | [] => .ok {}
    | a0 :: rest =>
      match conf.parseRemote a0 with
      | .error e => .error e
      | .ok (ir, im) =>
        match rest with
        | [] =>
          match conf.parseRemote "" with
          | .error e => .error e
          | .ok (r, n) => .ok { remote := r, name := n, iremote := ir, image := im }
        | [a1] =>
          match conf.parseRemote a1 with
          | .error e => .error e
          | .ok (r, n) => .ok { remote := r, name := n, iremote := ir, image := im }
        | _ => .ok { iremote := ir, image := im }
  match step1 with
  | .error e => .error e
  | .ok p =>
    if emptyFlag then
      if args.length > 1 then .error .emptyWithImage
      else if args.length == 0 then
        match conf.parseRemote "" with
        | .error e => .error e
        | .ok (r, n) => .ok { remote := r, name := n }
      else
        .ok { remote := p.iremote, name := p.image }
    else .ok p

/-- Lines 165–176: if a network flag is given, look the network up and
insert a nic device keyed by the network name (`bridged` for a bridge,
`macvlan` otherwise). -/
def applyNetwork (srv : Srv) (netFlag : String) (devs : DevMap) :
    Except Err DevMap × List Call :=
  if netFlag = "" then (.ok devs, [])
  else
    match srv.getNetwork netFlag with
    | .error e => (.error e, [.getNetwork netFlag])
    | .ok nw =>
      let nic : Device :=
        if nw.type = "bridge" then
          [("type", "nic"), ("nictype", "bridged"), ("parent", netFlag)]
        else
          [("type", "nic"), ("nictype", "macvlan"), ("parent", netFlag)]
      (.ok (mapSet devs netFlag nic), [.getNetwork netFlag])

/-- Lines 183–190: apply each `key=value` config flag in order,
splitting on the first `=`; an entry without `=` is a fatal error. -/
def applyConfigFlags (cfg : List (String × String)) :
    List String → Except Err (List (String × String))
  | [] => .ok cfg
  | e :: rest =>
    if containsChar e '=' then
      let fs := splitN2 e '='
      applyConfigFlags (mapSet cfg (fs.headD "") (fs.getD 1 "")) rest
    else .error (.badKeyValue e)

/-- Lines 192–204: if a storage flag is given, check the pool exists,
then force-set `devices["root"]` to the disk entry for that pool. -/
def applyStorage (srv : Srv) (pool : String) (devs : DevMap) :
    Except Err DevMap × List Call :=
  if pool = "" then (.ok devs, [])
  else
    match srv.getStoragePool pool with
    | .error e => (.error e, [.getStoragePool pool])
    | .ok _ =>
      (.ok (mapSet devs "root"
        [("type", "disk"), ("path", "/"), ("pool", pool)]),
       [.getStoragePool pool])

/-- The fixed `root` disk device inserted by the storage-pool flag. -/
def rootDevice (pool : String) : Device :=
  [("type", "disk"), ("path", "/"), ("pool", pool)]

/-- Lines 214–222: the profiles of the request.  With neither
`--no-profiles` nor explicit `-p` flags, profiles come from stdin when
non-empty and are `nil` (`none`) otherwise; in every other case they
are exactly the explicit flags (a set, possibly empty, list). -/
def chooseProfiles (noProfiles : Bool) (flagProfiles : List String)
    (stdinProfiles : Option (List String)) : Option (List String) :=
  if ¬noProfiles ∧ flagProfiles.length = 0 then
    match stdinProfiles with
    | some ps => if ps.length > 0 then some ps else none
    | none => none
  else some flagProfiles

/-- Lines 87–97: if stdin is an interactive terminal (`none`), the
overlay is the zero value of `api.InstancePut`; otherwise it is the
result of reading and parsing stdin. -/
def readStdin : Option (Except Err InstancePut) → Except Err InstancePut
  | none => .ok {}
  | some r => r

/-- Modelled from the spec: `conf.GetInstanceServer` (package
`lxc/config`, not under `src/`).  Per §1, §3 and the glossary,
instances are provisioned against a remote with the full management
protocol; a streaming-catalog (simplestreams) remote is a read-only
image-distribution endpoint and is not an instance server, so
connecting to it fails.  For any other remote the oracle decides. -/
def Config.getInstanceServer (conf : Config) (srv : Srv) (name : String) :
    Except Err Unit :=
  if conf.protocol name = "simplestreams" then .error (.notInstanceServer name)
  else srv.getInstanceServer name

/-- Lines 87–222 of `create`: everything up to and including the
construction of the base request `req` (before the image phase).
Returns the parsed names and the request, plus the remote calls made
(server connection, network lookup, storage-pool lookup). -/
def prepare (conf : Config) (srv : Srv) (fl : Flags)
    (stdin : Option (Except Err InstancePut)) (args : List String) :
    Except Err (ParsedNames × InstancesPost) × List Call :=
  match readStdin stdin with
  | .error e => (.error e, [])
  | .ok sd =>
  match parseArgs conf fl.empty args with
  | .error e => (.error e, [])
  | .ok p =>
  match conf.getInstanceServer srv p.remote with
  | .error e => (.error e, [.getInstanceServer p.remote])
  | .ok _ =>
    let devs0 : DevMap := if sd.devices.length > 0 then sd.devices else []
    match applyNetwork srv fl.network devs0 with
    | (.error e, tc) => (.error e, .getInstanceServer p.remote :: tc)
    | (.ok devs1, tc) =>
    let cfg0 : List (String × String) :=
      if sd.config.length > 0 then sd.config else []
    match applyConfigFlags cfg0 fl.config with
    | .error e => (.error e, .getInstanceServer p.remote :: tc)
    | .ok cfg =>
    match applyStorage srv fl.storage devs1 with
    | (.error e, ts) => (.error e, .getInstanceServer p.remote :: (tc ++ ts))
    | (.ok devs2, ts) =>
      let req : InstancesPost :=
        { name := p.name
          instanceType := fl.type
          config := cfg
          devices := devs2
          profiles := chooseProfiles fl.noProfiles fl.profile sd.profiles
          ephemeral := fl.ephemeral }
      (.ok (p, req), .getInstanceServer p.remote :: (tc ++ ts))

/-- Lines 328–356: the `guessImage` heuristic.  Returns the effective
`(iremote, image)` pair, the remote calls it made and the advisory
messages it printed. -/
def guessImage (conf : Config) (srv : Srv)
    (remote iremote image : String) :
    (String × String) × List Call × List Msg :=
  if remote ≠ iremote then ((iremote, image), [], [])
  else
    match splitN2 image '/' with
    | [] => ((iremote, image), [], [])
    | head :: restFields =>
      if (conf.remotes.lookup head).isNone then ((iremote, image), [], [])
      else
        match srv.getImageAlias remote image with
        | .ok _ => ((iremote, image), [.getImageAlias remote image], [])
        | .error _ =>
          match srv.getImage remote image with
          | .ok _ =>
            ((iremote, image),
             [.getImageAlias remote image, .getImage remote image], [])
          | .error _ =>
            match restFields with
            | [] =>
              ((head, "default"),
               [.getImageAlias remote image, .getImage remote image],
               [.localImageNotFound image head none])
            | rest :: _ =>
              ((head, rest),
               [.getImageAlias remote image, .getImage remote image],
               [.localImageNotFound image head (some rest)])

/-- Lines 311–320: extract the affected container list from the
operation and derive the reported name. -/
def extractName (opInfo : Operation) (name : String) : Except Err String :=
  match opInfo.resources.lookup "containers" with
  | none => .error .noContainers
  | some cs =>
    if cs.length = 0 then .error .noContainers
    else if cs.length = 1 ∧ name = "" then .ok (lastSeg (cs.headD ""))
    else .ok name

/-- Lines 274–320: operation tracking after a successful creation
call — attach the progress handler, wait (cancellably) for the
operation, fetch its target and extract the name. -/
def trackOp (srv : Srv) (name : String) : Except Err String :=
  match srv.addHandler with
  | .error e => .error e
  | .ok _ =>
  match srv.cancelableWait with
  | .error e => .error e
  | .ok _ =>
  match srv.getTarget with
  | .error e => .error e
  | .ok op => extractName op name

/-- Lines 226–320 of `create`: the image phase (guess, image-server
selection, default token, simplestreams fast path or alias/fingerprint
resolution), the creation call, operation tracking and name
extraction.  `checkNetwork` is not included. -/
def submit (conf : Config) (srv : Srv) (fl : Flags)
    (p : ParsedNames) (req0 : InstancesPost) :
    Except Err String × List Call × List Msg :=
  if fl.empty then
    let req := { req0 with source := { req0.source with type := "none" } }
    let res : Except Err String :=
      match srv.createInstance req with
      | .error e => .error e
      | .ok op => extractName op p.name
    (res, [.createInstance req], [])
  else
    let g := guessImage conf srv p.remote p.iremote p.image
    let ir1 := g.1.1
    let im1 := g.1.2
    let tg := g.2.1
    let mg := g.2.2
    let srvStep : Except Err Unit × List Call :=
      if ir1 = p.remote then (.ok (), [])
      else
        match srv.getImageServer ir1 with
        | .error e => (.error e, [.getImageServer ir1])
        | .ok _ => (.ok (), [.getImageServer ir1])
    match srvStep with
    | (.error e, ti) => (.error e, tg ++ ti, mg)
    | (.ok _, ti) =>
      let im2 := if im1 = "" then "default" else im1
      if conf.protocol ir1 = "simplestreams" then
        let img : Image := { fingerprint := im2, public := true }
        let req := { req0 with source := { req0.source with aliasName := im2 } }
        let res : Except Err String :=
          match srv.createInstanceFromImage ir1 img req with
          | .error e => .error e
          | .ok _ => trackOp srv p.name
        (res, tg ++ ti ++ [.createInstanceFromImage ir1 img req], mg)
      else
        let aliasRes := srv.getImageAlias ir1 im2
        let req :=
          match aliasRes with
          | .ok _ => { req0 with source := { req0.source with aliasName := im2 } }
          | .error _ => req0
        let im3 :=
          match aliasRes with
          | .ok al => al.target
          | .error _ => im2
        let tA := tg ++ ti ++ [.getImageAlias ir1 im2]
        match srv.getImage ir1 im3 with
        | .error e => (.error e, tA ++ [.getImage ir1 im3], mg)
        | .ok img =>
          let res : Except Err String :=
            match srv.createInstanceFromImage ir1 img req with
            | .error e => .error e
            | .ok _ => trackOp srv p.name
          (res, tA ++ [.getImage ir1 im3,
            .createInstanceFromImage ir1 img req], mg)

/-- Lines 358–373: the post-creation network validator.  Fetch the
instance (best-effort: a failed fetch returns silently); if no expanded
device has type `nic`, print the advisory block. -/
def checkNetwork (srv : Srv) (name : String) : List Call × List Msg :=
  match srv.getInstance name with
  | .error _ => ([.getInstance name], [])
  | .ok inst =>
    if inst.expandedDevices.any (fun dv => dv.2.lookup "type" = some "nic") then
      ([.getInstance name], [])
    else
      ([.getInstance name],
       [.containerNoNetwork, .hintCreateNetwork, .hintAttachNetwork])

/-- Lines 76–326: the whole `create` workflow.  Returns the final
instance name (or the fatal error), the ordered remote-call trace and
the error-channel messages. -/
def create (conf : Config) (srv : Srv) (fl : Flags)
    (stdin : Option (Except Err InstancePut)) (args : List String) :
    Except Err String × List Call × List Msg :=
  match prepare conf srv fl stdin args with
  | (.error e, t) => (.error e, t, [])
  | (.ok (p, req0), t) =>
    match submit conf srv fl p req0 with
    | (.error e, t2, m2) => (.error e, t ++ t2, m2)
    | (.ok nm, t2, m2) =>
      let cn := checkNetwork srv nm
      (.ok nm, t ++ t2 ++ cn.1, m2 ++ cn.2)

/-- Lines 60–74: `Run`.  `CheckArgs` (modelled from the spec: at most
two positional arguments) rejects longer argument lists; with zero
arguments and no `--empty` flag, usage is shown and nothing runs
(`.ok none`); otherwise `create` runs and its name is returned. -/
def run (conf : Config) (srv : Srv) (fl : Flags)
    (stdin : Option (Except Err InstancePut)) (args : List String) :
    Except Err (Option String) × List Call × List Msg :=
  if args.length > 2 then (.error .tooManyArgs, [], [])
  else if args.length = 0 ∧ ¬fl.empty then (.ok none, [], [])
  else
    match create conf srv fl stdin args with
    | (.ok n, t, m) => (.ok (some n), t, m)
    | (.error e, t, m) => (.error e, t, m)


/-! ## Witness fixtures

A benign baseline oracle and configuration used by the witness and
counterexample theorems; individual witnesses override single fields. -/

/-- Baseline configuration: a management-protocol default remote and a
streaming-catalog remote. -/
def conf0 : Config :=
  { remotes := [("local", "lxd"), ("images", "simplestreams")]
    defaultRemote := "local" }

/-- Baseline oracle: every endpoint succeeds, image lookups fail (no
alias and no fingerprint resolves). -/
def srv0 : Srv :=
  { getInstanceServer := fun _ => .ok ()
    getNetwork := fun _ => .ok ⟨"bridge"⟩
    getStoragePool := fun _ => .ok ()
    getImageServer := fun _ => .ok ()
    getImageAlias := fun _ _ => .error (.srv 0)
    getImage := fun _ _ => .error (.srv 0)
    createInstanceFromImage := fun _ _ _ => .ok ()
    addHandler := .ok ()
    cancelableWait := .ok ()
    getTarget := .ok ⟨[("containers", ["/1.0/containers/c1"])]⟩
    createInstance := fun _ => .ok ⟨[("containers", ["/1.0/containers/c1"])]⟩
    getInstance := fun _ => .ok ⟨[]⟩ }

/-! ## Helper lemmas -/

theorem mapSet_lookup_self {α : Type} (m : List (String × α)) (k : String) (v : α) :
    (mapSet m k v).lookup k = some v := by
  simp [mapSet, List.lookup]

/-- The trace of the post-creation validator is always the single
instance fetch. -/
theorem checkNetwork_calls (srv : Srv) (n : String) :
    (checkNetwork srv n).1 = [.getInstance n] := by
  unfold checkNetwork
  cases srv.getInstance n <;> simp
  split <;> rfl

/-- `guessImage` performs no calls, only the alias probe, or the alias
probe followed by the fingerprint probe — always against the source
remote and with the raw token. -/
theorem guessImage_calls (conf : Config) (srv : Srv) (r ir im : String) :
    (guessImage conf srv r ir im).2.1 = [] ∨
    (guessImage conf srv r ir im).2.1 = [.getImageAlias r im] ∨
    (guessImage conf srv r ir im).2.1 = [.getImageAlias r im, .getImage r im] := by
  by_cases hr : r ≠ ir
  · left; simp [guessImage, hr]
  · cases hf : splitN2 im '/' with
    | nil => left; simp [guessImage, hr, hf]
    | cons head tl =>
      by_cases hh : (List.lookup head conf.remotes).isNone
      · left; simp [guessImage, hr, hf, hh]
      · cases ha : srv.getImageAlias r im with
        | ok al => right; left; simp [guessImage, hr, hf, hh, ha]
        | error e1 =>
          cases hi : srv.getImage r im with
          | ok img => right; right; simp [guessImage, hr, hf, hh, ha, hi]
          | error e2 =>
            right; right
            cases tl <;> simp [guessImage, hr, hf, hh, ha, hi]

/-! ## C3: alias probe precedence in `guessImage` -/

/-- C3: if an image alias named exactly `t` resolves successfully on
the target server and the source and target remotes are equal,
`guessImage` returns `(sourceRemote, t)` unchanged (and prints
nothing), even when the part of `t` before the first slash names a
configured remote: the alias probe takes precedence over the
remote-name reinterpretation. -/
theorem C3_alias_probe_precedence (conf : Config) (srv : Srv)
    (remote t : String) (al : ImageAlias)
    (halias : srv.getImageAlias remote t = .ok al) :
    (guessImage conf srv remote remote t).1 = (remote, t) ∧
    (guessImage conf srv remote remote t).2.2 = [] := by
  cases hf : splitN2 t '/' with
  | nil => simp [guessImage, hf]
  | cons head tl =>
    by_cases hh : (List.lookup head conf.remotes).isNone <;>
      simp [guessImage, hf, hh, halias]

/-- Witness for C3: the token `images/alpine`, whose head names a
configured remote, still comes back unchanged when an alias of that
exact name resolves. -/
def srvC3 : Srv := { srv0 with getImageAlias := fun _ _ => .ok ⟨"abcd"⟩ }

theorem C3_alias_probe_precedence_witness :
    (guessImage conf0 srvC3 "local" "local" "images/alpine").1 =
      ("local", "images/alpine") ∧
    (guessImage conf0 srvC3 "local" "local" "images/alpine").2.2 = [] :=
  C3_alias_probe_precedence conf0 srvC3 "local" "images/alpine" ⟨"abcd"⟩ rfl

/-! ## C2: remote-name reinterpretation in `guessImage` -/

/-- C2: with equal source and target remotes, when neither an alias nor
a fingerprint named exactly `t` resolves on the target: if
`t = head/rest` with `head` naming a configured remote, `guessImage`
returns `(head, rest)` and emits the advisory reinterpretation message
on the error channel; if `t` has no slash and names a configured
remote, it returns `(t, "default")` with the advisory. -/
theorem C2_remote_fallback (conf : Config) (srv : Srv)
    (remote t : String) (e1 e2 : Err)
    (halias : srv.getImageAlias remote t = .error e1)
    (himg : srv.getImage remote t = .error e2) :
    (∀ hA rest, splitN2 t '/' = [hA, rest] →
      (conf.remotes.lookup hA).isSome →
      guessImage conf srv remote remote t =
        ((hA, rest),
         [.getImageAlias remote t, .getImage remote t],
         [.localImageNotFound t hA (some rest)])) ∧
    (splitN2 t '/' = [t] →
      (conf.remotes.lookup t).isSome →
      guessImage conf srv remote remote t =
        ((t, "default"),
         [.getImageAlias remote t, .getImage remote t],
         [.localImageNotFound t t none])) := by
  constructor
  · intro hA rest hsplit hsome
    obtain ⟨v, hv⟩ := Option.isSome_iff_exists.mp hsome
    simp [guessImage, hsplit, hv, halias, himg]
  · intro hsplit hsome
    obtain ⟨v, hv⟩ := Option.isSome_iff_exists.mp hsome
    simp [guessImage, hsplit, hv, halias, himg]

/-- Witness for C2 at concrete inputs: `images/alpine` (slash form) and
`images` (no slash), with both probes failing on the baseline oracle. -/
theorem C2_remote_fallback_witness :
    guessImage conf0 srv0 "local" "local" "images/alpine" =
      (("images", "alpine"),
       [.getImageAlias "local" "images/alpine", .getImage "local" "images/alpine"],
       [.localImageNotFound "images/alpine" "images" (some "alpine")]) ∧
    guessImage conf0 srv0 "local" "local" "images" =
      (("images", "default"),
       [.getImageAlias "local" "images", .getImage "local" "images"],
       [.localImageNotFound "images" "images" none]) :=
  ⟨(C2_remote_fallback conf0 srv0 "local" "images/alpine" (.srv 0) (.srv 0)
      rfl rfl).1 "images" "alpine" (by decide) (by decide),
   (C2_remote_fallback conf0 srv0 "local" "images" (.srv 0) (.srv 0)
      rfl rfl).2 (by decide) (by decide)⟩

/-! ## Structural lemmas about `prepare` -/

/-- Workflow phase of a call: 0 = preparation (server connection,
network, storage pool), 1 = image resolution and creation, 2 =
post-creation check. -/
def Call.stage : Call → Nat
  | .getInstanceServer _ => 0
  | .getNetwork _ => 0
  | .getStoragePool _ => 0
  | .getImageServer _ => 1
  | .getImageAlias _ _ => 1
  | .getImage _ _ => 1
  | .createInstanceFromImage _ _ _ => 1
  | .createInstance _ => 1
  | .getInstance _ => 2

theorem getInstanceServer_ok_not_simplestreams (conf : Config) (srv : Srv)
    (n : String) (u : Unit)
    (h : conf.getInstanceServer srv n = .ok u) :
    conf.protocol n ≠ "simplestreams" := by
  intro hss
  simp [Config.getInstanceServer, hss] at h

theorem applyNetwork_calls (srv : Srv) (nf : String) (devs : DevMap) :
    (applyNetwork srv nf devs).2 = [] ∨
    (applyNetwork srv nf devs).2 = [.getNetwork nf] := by
  by_cases h : nf = ""
  · left; simp [applyNetwork, h]
  · right
    unfold applyNetwork
    cases srv.getNetwork nf <;> simp [h]

theorem applyStorage_calls (srv : Srv) (pool : String) (devs : DevMap) :
    (applyStorage srv pool devs).2 = [] ∨
    (applyStorage srv pool devs).2 = [.getStoragePool pool] := by
  by_cases h : pool = ""
  · left; simp [applyStorage, h]
  · right
    unfold applyStorage
    cases srv.getStoragePool pool <;> simp [h]

theorem applyStorage_ok_root (srv : Srv) (pool : String) (devs d2 : DevMap)
    (ts : List Call) (hp : pool ≠ "")
    (h : applyStorage srv pool devs = (.ok d2, ts)) :
    d2.lookup "root" = some (rootDevice pool) := by
  unfold applyStorage at h
  rw [if_neg hp] at h
  cases hsp : srv.getStoragePool pool with
  | error e => rw [hsp] at h; simp at h
  | ok u =>
    rw [hsp] at h
    simp only [Prod.mk.injEq] at h
    obtain ⟨h1, -⟩ := h
    cases h1
    exact mapSet_lookup_self devs "root" (rootDevice pool)

/-- Every call the preparation phase makes is a stage-0 call. -/
theorem prepare_calls (conf : Config) (srv : Srv) (fl : Flags)
    (stdin : Option (Except Err InstancePut)) (args : List String) :
    ∀ c ∈ (prepare conf srv fl stdin args).2, c.stage = 0 := by
  intro c hc
  unfold prepare at hc
  cases h1 : readStdin stdin with
  | error e => simp [h1] at hc
  | ok sd =>
  simp only [h1] at hc
  cases h2 : parseArgs conf fl.empty args with
  | error e => simp [h2] at hc
  | ok p =>
  simp only [h2] at hc
  cases h3 : conf.getInstanceServer srv p.remote with
  | error e => simp [h3] at hc; simp [hc, Call.stage]
  | ok u =>
  simp only [h3] at hc
  rcases hAN : applyNetwork srv fl.network
      (if sd.devices.length > 0 then sd.devices else []) with ⟨res4, tc4⟩
  have htc4 : tc4 = [] ∨ tc4 = [.getNetwork fl.network] := by
    have := applyNetwork_calls srv fl.network
      (if sd.devices.length > 0 then sd.devices else [])
    rwa [hAN] at this
  have hstage4 : ∀ x ∈ tc4, Call.stage x = 0 := by
    rcases htc4 with h | h <;> simp [h, Call.stage]
  simp only [hAN] at hc
  cases res4 with
  | error e =>
    simp at hc
    rcases hc with hc | hc
    · simp [hc, Call.stage]
    · exact hstage4 c hc
  | ok devs1 =>
  cases h5 : applyConfigFlags (if sd.config.length > 0 then sd.config else [])
      fl.config with
  | error e =>
    simp only [h5] at hc
    simp at hc
    rcases hc with hc | hc
    · simp [hc, Call.stage]
    · exact hstage4 c hc
  | ok cfg =>
  simp only [h5] at hc
  rcases hAS : applyStorage srv fl.storage devs1 with ⟨res6, ts6⟩
  have hts6 : ts6 = [] ∨ ts6 = [.getStoragePool fl.storage] := by
    have := applyStorage_calls srv fl.storage devs1
    rwa [hAS] at this
  have hstage6 : ∀ x ∈ ts6, Call.stage x = 0 := by
    rcases hts6 with h | h <;> simp [h, Call.stage]
  simp only [hAS] at hc
  cases res6 with
  | error e =>
    simp at hc
    rcases hc with hc | hc | hc
    · simp [hc, Call.stage]
    · exact hstage4 c hc
    · exact hstage6 c hc
  | ok devs2 =>
    simp at hc
    rcases hc with hc | hc | hc
    · simp [hc, Call.stage]
    · exact hstage4 c hc
    · exact hstage6 c hc

/-- What a successful preparation phase guarantees about the parsed
names and the base request. -/
theorem prepare_ok_spec (conf : Config) (srv : Srv) (fl : Flags)
    (stdin : Option (Except Err InstancePut)) (args : List String)
    (p : ParsedNames) (req0 : InstancesPost) (t : List Call)
    (hp : prepare conf srv fl stdin args = (.ok (p, req0), t)) :
    parseArgs conf fl.empty args = .ok p ∧
    conf.protocol p.remote ≠ "simplestreams" ∧
    req0.name = p.name ∧
    (∀ sd, readStdin stdin = .ok sd →
      req0.profiles = chooseProfiles fl.noProfiles fl.profile sd.profiles) ∧
    (fl.storage ≠ "" → req0.devices.lookup "root" = some (rootDevice fl.storage)) ∧
    (∃ rest, t = .getInstanceServer p.remote :: rest) := by
  unfold prepare at hp
  cases h1 : readStdin stdin with
  | error e => simp [h1] at hp
  | ok sd =>
  simp only [h1] at hp
  cases h2 : parseArgs conf fl.empty args with
  | error e => simp [h2] at hp
  | ok p' =>
  simp only [h2] at hp
  cases h3 : conf.getInstanceServer srv p'.remote with
  | error e => simp [h3] at hp
  | ok u =>
  simp only [h3] at hp
  rcases hAN : applyNetwork srv fl.network
      (if sd.devices.length > 0 then sd.devices else []) with ⟨res4, tc4⟩
  simp only [hAN] at hp
  cases res4 with
  | error e => simp at hp
  | ok devs1 =>
  cases h5 : applyConfigFlags (if sd.config.length > 0 then sd.config else [])
      fl.config with
  | error e => simp only [h5] at hp; simp at hp
  | ok cfg =>
  simp only [h5] at hp
  rcases hAS : applyStorage srv fl.storage devs1 with ⟨res6, ts6⟩
  simp only [hAS] at hp
  cases res6 with
  | error e => simp at hp
  | ok devs2 =>
    simp only [Prod.mk.injEq, Except.ok.injEq] at hp
    obtain ⟨⟨hpp, hreq⟩, ht⟩ := hp
    subst hpp
    refine ⟨rfl, getInstanceServer_ok_not_simplestreams conf srv p'.remote u h3,
      ?_, ?_, ?_, ⟨tc4 ++ ts6, ht.symm⟩⟩
    · rw [← hreq]
    · intro sd' hsd'
      cases hsd'
      rw [← hreq]
    · intro hst
      rw [← hreq]
      exact applyStorage_ok_root srv fl.storage devs1 devs2 ts6 hst hAS

/-! ## Structural lemmas about `submit` -/

/-- Every call the image/creation phase makes is a stage-1 call. -/
theorem submit_calls (conf : Config) (srv : Srv) (fl : Flags)
    (p : ParsedNames) (req0 : InstancesPost) :
    ∀ c ∈ (submit conf srv fl p req0).2.1, c.stage = 1 := by
  intro c hc
  unfold submit at hc
  by_cases he : fl.empty
  · simp only [he, if_true] at hc
    simp at hc
    simp [hc, Call.stage]
  · simp only [he, if_false] at hc
    rcases hg : guessImage conf srv p.remote p.iremote p.image with
      ⟨⟨ir1, im1⟩, tg, mg⟩
    simp only [hg] at hc
    have htg : ∀ x ∈ tg, Call.stage x = 1 := by
      have h3 := guessImage_calls conf srv p.remote p.iremote p.image
      rw [hg] at h3
      simp only at h3
      rcases h3 with h | h | h <;> simp [h, Call.stage]
    by_cases hir : ir1 = p.remote
    · simp only [hir, if_pos rfl] at hc
      by_cases hss : conf.protocol p.remote = "simplestreams"
      · simp only [hss, if_pos rfl] at hc
        simp at hc
        rcases hc with hc | hc
        · exact htg c hc
        · simp [hc, Call.stage]
      · simp only [if_neg hss] at hc
        cases hal : srv.getImageAlias p.remote (if im1 = "" then "default" else im1) with
        | ok al =>
          simp only [hal] at hc
          cases him : srv.getImage p.remote al.target with
          | error e =>
            simp only [him] at hc
            simp at hc
            rcases hc with hc | hc
            · exact htg c hc
            · rcases hc with hc | hc <;> simp [hc, Call.stage]
          | ok img =>
            simp only [him] at hc
            simp at hc
            rcases hc with hc | hc
            · exact htg c hc
            · rcases hc with hc | hc | hc <;> simp [hc, Call.stage]
        | error e1 =>
          simp only [hal] at hc
          cases him : srv.getImage p.remote
              (if im1 = "" then "default" else im1) with
          | error e =>
            simp only [him] at hc
            simp at hc
            rcases hc with hc | hc
            · exact htg c hc
            · rcases hc with hc | hc <;> simp [hc, Call.stage]
          | ok img =>
            simp only [him] at hc
            simp at hc
            rcases hc with hc | hc
            · exact htg c hc
            · rcases hc with hc | hc | hc <;> simp [hc, Call.stage]
    · simp only [if_neg hir] at hc
      cases hgs : srv.getImageServer ir1 with
      | error e =>
        simp only [hgs] at hc
        simp at hc
        rcases hc with hc | hc
        · exact htg c hc
        · simp [hc, Call.stage]
      | ok u =>
        simp only [hgs] at hc
        by_cases hss : conf.protocol ir1 = "simplestreams"
        · simp only [hss, if_pos rfl] at hc
          simp at hc
          rcases hc with hc | hc | hc
          · exact htg c hc
          · simp [hc, Call.stage]
          · simp [hc, Call.stage]
        · simp only [if_neg hss] at hc
          cases hal : srv.getImageAlias ir1 (if im1 = "" then "default" else im1) with
          | ok al =>
            simp only [hal] at hc
            cases him : srv.getImage ir1 al.target with
            | error e =>
              simp only [him] at hc
              simp at hc
              rcases hc with hc | hc | hc
              · exact htg c hc
              · simp [hc, Call.stage]
              · rcases hc with hc | hc <;> simp [hc, Call.stage]
            | ok img =>
              simp only [him] at hc
              simp at hc
              rcases hc with hc | hc | hc
              · exact htg c hc
              · simp [hc, Call.stage]
              · rcases hc with hc | hc | hc <;> simp [hc, Call.stage]
          | error e1 =>
            simp only [hal] at hc
            cases him : srv.getImage ir1
                (if im1 = "" then "default" else im1) with
            | error e =>
              simp only [him] at hc
              simp at hc
              rcases hc with hc | hc | hc
              · exact htg c hc
              · simp [hc, Call.stage]
              · rcases hc with hc | hc <;> simp [hc, Call.stage]
            | ok img =>
              simp only [him] at hc
              simp at hc
              rcases hc with hc | hc | hc
              · exact htg c hc
              · simp [hc, Call.stage]
              · rcases hc with hc | hc | hc <;> simp [hc, Call.stage]

/-- Every creation request the image/creation phase submits differs
from the base request only in its source descriptor: devices, config,
profiles, name, type and the ephemeral flag are those of the base
request built by the preparation phase. -/
theorem submit_req (conf : Config) (srv : Srv) (fl : Flags)
    (p : ParsedNames) (req0 : InstancesPost) :
    ∀ ir img req,
      (Call.createInstanceFromImage ir img req ∈ (submit conf srv fl p req0).2.1 ∨
       Call.createInstance req ∈ (submit conf srv fl p req0).2.1) →
      ∃ s, req = { req0 with source := s } := by
  intro ir img req hmem
  unfold submit at hmem
  by_cases he : fl.empty
  · simp only [he, if_true] at hmem
    rcases hmem with hmem | hmem
    · simp at hmem
    · simp at hmem
      exact ⟨_, hmem⟩
  · simp only [he, if_false] at hmem
    rcases hg : guessImage conf srv p.remote p.iremote p.image with
      ⟨⟨ir1, im1⟩, tg, mg⟩
    simp only [hg] at hmem
    have h3 := guessImage_calls conf srv p.remote p.iremote p.image
    rw [hg] at h3
    simp only at h3
    have hng1 : Call.createInstanceFromImage ir img req ∉ tg := by
      rcases h3 with h | h | h <;> simp [h]
    have hng2 : Call.createInstance req ∉ tg := by
      rcases h3 with h | h | h <;> simp [h]
    by_cases hir : ir1 = p.remote
    · simp only [hir, if_pos rfl] at hmem
      by_cases hss : conf.protocol p.remote = "simplestreams"
      · simp only [hss, if_pos rfl] at hmem
        rcases hmem with hmem | hmem
        · simp [hng1] at hmem
          exact ⟨_, hmem.2.2⟩
        · simp [hng2] at hmem
      · simp only [if_neg hss] at hmem
        cases hal : srv.getImageAlias p.remote (if im1 = "" then "default" else im1) with
        | ok al =>
          simp only [hal] at hmem
          cases him : srv.getImage p.remote al.target with
          | error e =>
            simp only [him] at hmem
            rcases hmem with hmem | hmem
            · simp [hng1] at hmem
            · simp [hng2] at hmem
          | ok img2 =>
            simp only [him] at hmem
            rcases hmem with hmem | hmem
            · simp [hng1] at hmem
              exact ⟨_, hmem.2.2⟩
            · simp [hng2] at hmem
        | error e1 =>
          simp only [hal] at hmem
          cases him : srv.getImage p.remote
              (if im1 = "" then "default" else im1) with
          | error e =>
            simp only [him] at hmem
            rcases hmem with hmem | hmem
            · simp [hng1] at hmem
            · simp [hng2] at hmem
          | ok img2 =>
            simp only [him] at hmem
            rcases hmem with hmem | hmem
            · simp [hng1] at hmem
              exact ⟨req0.source, by simp [hmem.2.2]⟩
            · simp [hng2] at hmem
    · simp only [if_neg hir] at hmem
      cases hgs : srv.getImageServer ir1 with
      | error e =>
        simp only [hgs] at hmem
        rcases hmem with hmem | hmem
        · simp [hng1] at hmem
        · simp [hng2] at hmem
      | ok u =>
        simp only [hgs] at hmem
        by_cases hss : conf.protocol ir1 = "simplestreams"
        · simp only [hss, if_pos rfl] at hmem
          rcases hmem with hmem | hmem
          · simp [hng1] at hmem
            exact ⟨_, hmem.2.2⟩
          · simp [hng2] at hmem
        · simp only [if_neg hss] at hmem
          cases hal : srv.getImageAlias ir1 (if im1 = "" then "default" else im1) with
          | ok al =>
            simp only [hal] at hmem
            cases him : srv.getImage ir1 al.target with
            | error e =>
              simp only [him] at hmem
              rcases hmem with hmem | hmem
              · simp [hng1] at hmem
              · simp [hng2] at hmem
            | ok img2 =>
              simp only [him] at hmem
              rcases hmem with hmem | hmem
              · simp [hng1] at hmem
                exact ⟨_, hmem.2.2⟩
              · simp [hng2] at hmem
          | error e1 =>
            simp only [hal] at hmem
            cases him : srv.getImage ir1
                (if im1 = "" then "default" else im1) with
            | error e =>
              simp only [him] at hmem
              rcases hmem with hmem | hmem
              · simp [hng1] at hmem
              · simp [hng2] at hmem
            | ok img2 =>
              simp only [him] at hmem
              rcases hmem with hmem | hmem
              · simp [hng1] at hmem
                exact ⟨req0.source, by simp [hmem.2.2]⟩
              · simp [hng2] at hmem

/-! ## Decomposition of the `create` trace -/

/-- Every call `create` makes belongs to the preparation phase, to the
image/creation phase run on the prepared names and base request, or is
the post-creation instance fetch. -/
theorem create_mem (conf : Config) (srv : Srv) (fl : Flags)
    (stdin : Option (Except Err InstancePut)) (args : List String)
    (c : Call) (hc : c ∈ (create conf srv fl stdin args).2.1) :
    c ∈ (prepare conf srv fl stdin args).2 ∨
    ∃ p req0 t, prepare conf srv fl stdin args = (.ok (p, req0), t) ∧
      (c ∈ (submit conf srv fl p req0).2.1 ∨ ∃ n, c = .getInstance n) := by
  unfold create at hc
  rcases hp : prepare conf srv fl stdin args with ⟨res, t⟩
  simp only [hp] at hc
  cases res with
  | error e =>
    left
    simpa using hc
  | ok pr =>
    rcases pr with ⟨p, req0⟩
    rcases hs : submit conf srv fl p req0 with ⟨res2, t2, m2⟩
    simp only [hs] at hc
    cases res2 with
    | error e =>
      simp at hc
      rcases hc with hc | hc
      · left
        exact hc
      · right
        exact ⟨p, req0, t, rfl, Or.inl (by rw [hs]; exact hc)⟩
    | ok nm =>
      simp [checkNetwork_calls] at hc
      rcases hc with hc | hc | hc
      · left
        exact hc
      · right
        exact ⟨p, req0, t, rfl, Or.inl (by rw [hs]; exact hc)⟩
      · right
        exact ⟨p, req0, t, rfl, Or.inr ⟨nm, hc⟩⟩

/-! ## C1: storage-pool override forces the root disk device -/

/-- C1: whenever a storage-pool flag is given, every creation request
that `create` actually submits (with or without an image) carries
`devices["root"] = {type: disk, path: "/", pool: <flag>}` — no matter
what structured input supplied for `root` or what device the network
flag inserted, and no later step alters the entry. -/
theorem C1_storage_root (conf : Config) (srv : Srv) (fl : Flags)
    (stdin : Option (Except Err InstancePut)) (args : List String)
    (hst : fl.storage ≠ "") :
    ∀ ir img req,
      (Call.createInstanceFromImage ir img req ∈ (create conf srv fl stdin args).2.1 ∨
       Call.createInstance req ∈ (create conf srv fl stdin args).2.1) →
      req.devices.lookup "root" = some (rootDevice fl.storage) := by
  intro ir img req hmem
  have key : ∀ (c : Call), c ∈ (create conf srv fl stdin args).2.1 →
      (c = Call.createInstanceFromImage ir img req ∨ c = Call.createInstance req) →
      req.devices.lookup "root" = some (rootDevice fl.storage) := by
    intro c hc hform
    rcases create_mem conf srv fl stdin args c hc with hpre | ⟨p, req0, t, hp, hrest⟩
    · have := prepare_calls conf srv fl stdin args c hpre
      rcases hform with hf | hf <;> simp [hf, Call.stage] at this
    · rcases hrest with hsub | ⟨n, hgi⟩
      · have hr := submit_req conf srv fl p req0 ir img req
          (by rcases hform with hf | hf
              · exact Or.inl (hf ▸ hsub)
              · exact Or.inr (hf ▸ hsub))
        obtain ⟨s, hs⟩ := hr
        have hdev := (prepare_ok_spec conf srv fl stdin args p req0 t hp).2.2.2.2.1 hst
        rw [hs]
        exact hdev
      · rcases hform with hf | hf <;> rw [hf] at hgi <;> simp at hgi
  rcases hmem with hm | hm
  · exact key _ hm (Or.inl rfl)
  · exact key _ hm (Or.inr rfl)

/-- Flags of the C1 witness: empty-instance creation with a
storage-pool override. -/
def flC1 : Flags := { storage := "pool1", empty := true }

/-- The request the C1 witness run submits. -/
def reqC1 : InstancesPost :=
  { devices := [("root", rootDevice "pool1")]
    source := { type := "none" } }

/-- Witness for C1: a concrete run with `--empty -s pool1` and a
structured-input `root` device that gets overridden. -/
theorem C1_storage_root_witness :
    Call.createInstance reqC1 ∈
      (create conf0 srv0 flC1
        (some (.ok { devices := [("root", [("path", "/old")])] })) []).2.1 ∧
    reqC1.devices.lookup "root" = some (rootDevice "pool1") :=
  ⟨by decide,
   C1_storage_root conf0 srv0 flC1
     (some (.ok { devices := [("root", [("path", "/old")])] })) []
     (by decide) "" {} reqC1 (Or.inr (by decide))⟩

/-! ## C4: the profiles policy -/

theorem chooseProfiles_eq (n : Bool) (fp : List String)
    (sp : Option (List String)) :
    chooseProfiles n fp sp =
      if n = true ∨ fp ≠ [] then some fp
      else
        match sp with
        | some ps => if ps = [] then none else some ps
        | none => none := by
  unfold chooseProfiles
  cases n with
  | true => simp
  | false =>
    by_cases hf : fp = []
    · subst hf
      simp
      cases sp with
      | none => rfl
      | some ps =>
        by_cases hp : ps = []
        · subst hp; simp
        · simp [hp, List.length_pos]
    · simp [hf, List.length_eq_zero]

/-- C4 (amended): for every request actually submitted, profiles are
exactly the explicit flags whenever `--no-profiles` is set or at least
one `-p` flag is given (the set empty list under `--no-profiles` with
no flags); otherwise they are taken verbatim from structured input
when it supplied a non-empty list, and are unset (`none`, the Go `nil`,
distinct from the set empty list) when structured input supplied none
or an empty list. -/
theorem C4_profiles_policy (conf : Config) (srv : Srv) (fl : Flags)
    (stdin : Option (Except Err InstancePut)) (args : List String)
    (sd : InstancePut) (hsd : readStdin stdin = .ok sd) :
    ∀ ir img req,
      (Call.createInstanceFromImage ir img req ∈ (create conf srv fl stdin args).2.1 ∨
       Call.createInstance req ∈ (create conf srv fl stdin args).2.1) →
      req.profiles =
        if fl.noProfiles = true ∨ fl.profile ≠ [] then some fl.profile
        else
          match sd.profiles with
          | some ps => if ps = [] then none else some ps
          | none => none := by
  intro ir img req hmem
  have key : ∀ (c : Call), c ∈ (create conf srv fl stdin args).2.1 →
      (c = Call.createInstanceFromImage ir img req ∨ c = Call.createInstance req) →
      req.profiles =
        if fl.noProfiles = true ∨ fl.profile ≠ [] then some fl.profile
        else
          match sd.profiles with
          | some ps => if ps = [] then none else some ps
          | none => none := by
    intro c hc hform
    rcases create_mem conf srv fl stdin args c hc with hpre | ⟨p, req0, t, hp, hrest⟩
    · have := prepare_calls conf srv fl stdin args c hpre
      rcases hform with hf | hf <;> simp [hf, Call.stage] at this
    · rcases hrest with hsub | ⟨n, hgi⟩
      · have hr := submit_req conf srv fl p req0 ir img req
          (by rcases hform with hf | hf
              · exact Or.inl (hf ▸ hsub)
              · exact Or.inr (hf ▸ hsub))
        obtain ⟨s, hs⟩ := hr
        have hprof := (prepare_ok_spec conf srv fl stdin args p req0 t hp).2.2.2.1 sd hsd
        rw [hs]
        show req0.profiles = _
        rw [hprof, chooseProfiles_eq]
      · rcases hform with hf | hf <;> rw [hf] at hgi <;> simp at hgi
  rcases hmem with hm | hm
  · exact key _ hm (Or.inl rfl)
  · exact key _ hm (Or.inr rfl)

/-- Flags of the C4 witness: `--empty --no-profiles`, no `-p` flags. -/
def flC4w : Flags := { noProfiles := true, empty := true }

/-- The request the C4 witness run submits: profiles are the set empty
list even though structured input supplied `["a"]`. -/
def reqC4w : InstancesPost :=
  { profiles := some [], source := { type := "none" } }

/-- Witness for C4 (amended) at a concrete input: `--no-profiles` with
no flags and non-empty structured-input profiles yields the set empty
list. -/
theorem C4_profiles_policy_witness :
    Call.createInstance reqC4w ∈
      (create conf0 srv0 flC4w (some (.ok { profiles := some ["a"] })) []).2.1 ∧
    reqC4w.profiles =
      (if flC4w.noProfiles = true ∨ flC4w.profile ≠ [] then some flC4w.profile
       else
         match (InstancePut.profiles { profiles := some ["a"] }) with
         | some ps => if ps = [] then none else some ps
         | none => none) :=
  ⟨by decide,
   C4_profiles_policy conf0 srv0 flC4w (some (.ok { profiles := some ["a"] })) []
     { profiles := some ["a"] } rfl "" {} reqC4w (Or.inr (by decide))⟩

/-- Flags of the C4 counterexample: no suppression, no `-p` flags. -/
def flC4 : Flags := { empty := true }

/-- The request the C4 counterexample run submits. -/
def reqC4 : InstancesPost := { source := { type := "none" } }

/-- Counterexample to C4 as stated: structured input supplied the
explicit empty profile list (`some []`, a Go non-nil empty slice), no
suppression and no flags were given, yet the submitted request carries
unset profiles (`none`, the Go `nil`) — not the verbatim structured
input value. -/
theorem C4_profiles_counterexample :
    Call.createInstance reqC4 ∈
      (create conf0 srv0 flC4 (some (.ok { profiles := some [] })) []).2.1 ∧
    reqC4.profiles = none ∧
    ¬ reqC4.profiles = some [] :=
  ⟨by decide, rfl, by decide⟩

/-! ## C5: `--empty` excludes an image argument -/

theorem parseArgs_empty_two (conf : Config) (a b : String) :
    ∃ e, parseArgs conf true [a, b] = .error e := by
  unfold parseArgs
  cases h0 : conf.parseRemote a with
  | error e => exact ⟨e, by simp [h0]⟩
  | ok p0 =>
    cases h1 : conf.parseRemote b with
    | error e =>
      rcases p0 with ⟨ir, im⟩
      exact ⟨e, by simp [h0, h1]⟩
    | ok p1 =>
      rcases p0 with ⟨ir, im⟩
      rcases p1 with ⟨r, n⟩
      exact ⟨.emptyWithImage, by simp [h0, h1]⟩

/-- C5: supplying both the empty-instance flag and an image argument
(two positional arguments) makes `create` fail before any remote call:
the result is an error and the call trace is empty. -/
theorem C5_empty_image_rejected (conf : Config) (srv : Srv) (fl : Flags)
    (stdin : Option (Except Err InstancePut)) (a b : String)
    (he : fl.empty = true) :
    (∃ e, (create conf srv fl stdin [a, b]).1 = .error e) ∧
    (create conf srv fl stdin [a, b]).2.1 = [] := by
  have hprep : ∃ e, prepare conf srv fl stdin [a, b] = (.error e, []) := by
    unfold prepare
    cases h1 : readStdin stdin with
    | error e => exact ⟨e, by simp⟩
    | ok sd =>
      obtain ⟨e, hpe⟩ := parseArgs_empty_two conf a b
      rw [← he] at hpe
      rw [hpe]
      exact ⟨e, by simp⟩
  obtain ⟨e, hpe⟩ := hprep
  have hcr : create conf srv fl stdin [a, b] = (.error e, [], []) := by
    unfold create
    rw [hpe]
  rw [hcr]
  exact ⟨⟨e, rfl⟩, rfl⟩

/-- Witness for C5 at a concrete input: `--empty` with image and name
arguments. -/
theorem C5_empty_image_rejected_witness :
    (∃ e, (create conf0 srv0 { empty := true } none ["img", "c1"]).1 = .error e) ∧
    (create conf0 srv0 { empty := true } none ["img", "c1"]).2.1 = [] :=
  C5_empty_image_rejected conf0 srv0 { empty := true } none "img" "c1" rfl

/-! ## C6: malformed config flag entries -/

theorem applyConfigFlags_bad :
    ∀ (entries : List String) (cfg : List (String × String)),
    (∃ e ∈ entries, containsChar e '=' = false) →
    ∃ err, applyConfigFlags cfg entries = .error err := by
  intro entries
  induction entries with
  | nil =>
    intro cfg h
    simp at h
  | cons x xs ih =>
    intro cfg hbad
    by_cases hx : containsChar x '=' = true
    · have hxs : ∃ e ∈ xs, containsChar e '=' = false := by
        rcases hbad with ⟨e, he, hne⟩
        cases he with
        | head => rw [hx] at hne; simp at hne
        | tail _ hmem => exact ⟨e, hmem, hne⟩
      obtain ⟨err, herr⟩ := ih
        (mapSet cfg ((splitN2 x '=').head?.getD "") ((splitN2 x '=')[1]?.getD "")) hxs
      exact ⟨err, by simp [applyConfigFlags, hx, herr]⟩
    · exact ⟨.badKeyValue x, by simp [applyConfigFlags, hx]⟩

/-- C6 (amended): a config flag entry without `=` is a fatal input
error; the failure happens before any storage-pool, image-server,
image or creation call — at failure the trace holds at most the server
connection and the network lookup. -/
theorem C6_bad_config_entry (conf : Config) (srv : Srv) (fl : Flags)
    (stdin : Option (Except Err InstancePut)) (args : List String)
    (hbad : ∃ e ∈ fl.config, containsChar e '=' = false) :
    (∃ err, (create conf srv fl stdin args).1 = .error err) ∧
    (∀ c ∈ (create conf srv fl stdin args).2.1,
      (∃ r, c = .getInstanceServer r) ∨ (∃ n, c = .getNetwork n)) := by
  have hprep : ∃ err T, prepare conf srv fl stdin args = (.error err, T) ∧
      ∀ c ∈ T, (∃ r, c = .getInstanceServer r) ∨ (∃ n, c = .getNetwork n) := by
    unfold prepare
    cases h1 : readStdin stdin with
    | error e => exact ⟨e, [], by simp, by simp⟩
    | ok sd =>
    cases h2 : parseArgs conf fl.empty args with
    | error e => exact ⟨e, [], by simp, by simp⟩
    | ok p =>
    cases h3 : conf.getInstanceServer srv p.remote with
    | error e =>
      exact ⟨e, [.getInstanceServer p.remote], by simp [h3], by simp⟩
    | ok u =>
    rcases hAN : applyNetwork srv fl.network
        (if sd.devices.length > 0 then sd.devices else []) with ⟨res4, tc4⟩
    have htc4 := applyNetwork_calls srv fl.network
      (if sd.devices.length > 0 then sd.devices else [])
    rw [hAN] at htc4
    simp only at htc4
    have htc4m : ∀ c ∈ tc4,
        (∃ r, c = Call.getInstanceServer r) ∨ (∃ n, c = Call.getNetwork n) := by
      rcases htc4 with h | h <;> simp [h]
    cases res4 with
    | error e =>
      refine ⟨e, Call.getInstanceServer p.remote :: tc4, by simp [h3, hAN], ?_⟩
      intro c hc
      rcases List.mem_cons.mp hc with hc | hc
      · exact Or.inl ⟨p.remote, hc⟩
      · exact htc4m c hc
    | ok devs1 =>
      obtain ⟨err, herr⟩ := applyConfigFlags_bad fl.config
        (if sd.config.length > 0 then sd.config else []) hbad
      refine ⟨err, Call.getInstanceServer p.remote :: tc4,
        by simp [h3, hAN, herr], ?_⟩
      intro c hc
      rcases List.mem_cons.mp hc with hc | hc
      · exact Or.inl ⟨p.remote, hc⟩
      · exact htc4m c hc
  obtain ⟨err, T, hpe, hT⟩ := hprep
  have hcr : create conf srv fl stdin args = (.error err, T, []) := by
    unfold create
    rw [hpe]
  rw [hcr]
  exact ⟨⟨err, rfl⟩, hT⟩

/-- Flags of the C6 example runs: one malformed config entry, under
`--empty`. -/
def flC6 : Flags := { config := ["oops"], empty := true }

/-- Witness for C6 (amended) at a concrete input. -/
theorem C6_bad_config_entry_witness :
    (∃ err, (create conf0 srv0 flC6 none []).1 = .error err) ∧
    (∀ c ∈ (create conf0 srv0 flC6 none []).2.1,
      (∃ r, c = .getInstanceServer r) ∨ (∃ n, c = .getNetwork n)) :=
  C6_bad_config_entry conf0 srv0 flC6 none [] ⟨"oops", by decide, by decide⟩

/-- Counterexample to C6 as stated: the malformed entry is rejected,
but a remote call — the server connection — has already been attempted
when the failure is reported: the trace at failure is not empty. -/
theorem C6_bad_config_entry_counterexample :
    (create conf0 srv0 flC6 none []).1 = .error (.badKeyValue "oops") ∧
    (create conf0 srv0 flC6 none []).2.1 = [.getInstanceServer "local"] ∧
    (create conf0 srv0 flC6 none []).2.1 ≠ [] :=
  ⟨by rfl, by decide, by decide⟩

/-! ## C8: zero positional arguments -/

/-- The trace of the preparation phase is empty (stdin or argument
parsing failed) or starts with the connection to the parsed remote. -/
theorem prepare_trace_head (conf : Config) (srv : Srv) (fl : Flags)
    (stdin : Option (Except Err InstancePut)) (args : List String) :
    (prepare conf srv fl stdin args).2 = [] ∨
    ∃ p rest, parseArgs conf fl.empty args = .ok p ∧
      (prepare conf srv fl stdin args).2 = .getInstanceServer p.remote :: rest := by
  unfold prepare
  cases h1 : readStdin stdin with
  | error e => left; simp
  | ok sd =>
  cases h2 : parseArgs conf fl.empty args with
  | error e => left; simp
  | ok p =>
  right
  cases h3 : conf.getInstanceServer srv p.remote with
  | error e => exact ⟨p, [], rfl, by simp [h3]⟩
  | ok u =>
  rcases hAN : applyNetwork srv fl.network
      (if sd.devices.length > 0 then sd.devices else []) with ⟨res4, tc4⟩
  cases res4 with
  | error e => exact ⟨p, tc4, rfl, by simp [h3, hAN]⟩
  | ok devs1 =>
  cases h5 : applyConfigFlags (if sd.config.length > 0 then sd.config else [])
      fl.config with
  | error e => exact ⟨p, tc4, rfl, by simp [h3, hAN, h5]⟩
  | ok cfg =>
  rcases hAS : applyStorage srv fl.storage devs1 with ⟨res6, ts6⟩
  cases res6 with
  | error e => exact ⟨p, tc4 ++ ts6, rfl, by simp [h3, hAN, h5, hAS]⟩
  | ok devs2 => exact ⟨p, tc4 ++ ts6, rfl, by simp [h3, hAN, h5, hAS]⟩

/-- The `create` trace is the preparation trace (on preparation
failure) or extends it. -/
theorem create_trace_split (conf : Config) (srv : Srv) (fl : Flags)
    (stdin : Option (Except Err InstancePut)) (args : List String) :
    (create conf srv fl stdin args).2.1 = (prepare conf srv fl stdin args).2 ∨
    ∃ p req0 t rest, prepare conf srv fl stdin args = (.ok (p, req0), t) ∧
      (create conf srv fl stdin args).2.1 = t ++ rest := by
  unfold create
  rcases hp : prepare conf srv fl stdin args with ⟨res, t⟩
  cases res with
  | error e => left; simp
  | ok pr =>
    rcases pr with ⟨p, req0⟩
    right
    rcases hs : submit conf srv fl p req0 with ⟨res2, t2, m2⟩
    cases res2 with
    | error e => exact ⟨p, req0, t, t2, rfl, by simp [hs]⟩
    | ok nm =>
      exact ⟨p, req0, t, t2 ++ (checkNetwork srv nm).1, rfl, by simp [hs]⟩

/-- C8: with zero positional arguments, empty-instance mode is
mandatory: without the flag, `Run` shows usage, provisions nothing and
makes no remote call; with the flag, the empty remote token parses to
the configured defaults (default remote, empty name — the server
assigns one), the first remote call, if any, is the connection to the
default remote, and every submitted request carries the empty name. -/
theorem C8_zero_args (conf : Config) (srv : Srv) (fl : Flags)
    (stdin : Option (Except Err InstancePut)) :
    (fl.empty = false → run conf srv fl stdin [] = (.ok none, [], [])) ∧
    (fl.empty = true →
      parseArgs conf true [] =
        .ok { remote := conf.defaultRemote, name := "", iremote := "", image := "" } ∧
      (∀ c t, (run conf srv fl stdin []).2.1 = c :: t →
        c = .getInstanceServer conf.defaultRemote) ∧
      (∀ req, Call.createInstance req ∈ (run conf srv fl stdin []).2.1 →
        req.name = "")) := by
  constructor
  · intro hfe
    simp [run, hfe]
  · intro hfe
    have hparse : parseArgs conf true [] =
        .ok { remote := conf.defaultRemote, name := "", iremote := "", image := "" } := by
      rfl
    have hrt : (run conf srv fl stdin []).2.1 = (create conf srv fl stdin []).2.1 := by
      unfold run
      rcases hc : create conf srv fl stdin [] with ⟨res, T, M⟩
      cases res <;> simp [hfe, hc]
    refine ⟨hparse, ?_, ?_⟩
    · intro c t hct
      rw [hrt] at hct
      have hhead : ∀ p : ParsedNames, parseArgs conf fl.empty [] = .ok p →
          p.remote = conf.defaultRemote := by
        intro p hpp
        rw [hfe, hparse] at hpp
        cases hpp
        rfl
      rcases create_trace_split conf srv fl stdin [] with hsplit |
        ⟨p, req0, t0, rest, hprep, hsplit⟩
      · rw [hsplit] at hct
        rcases prepare_trace_head conf srv fl stdin [] with hh | ⟨p, rest, hpp, hh⟩
        · rw [hh] at hct; cases hct
        · rw [hh] at hct
          injection hct with h1 h2
          rw [← h1, hhead p hpp]
      · obtain ⟨rest', ht0⟩ :=
          (prepare_ok_spec conf srv fl stdin [] p req0 t0 hprep).2.2.2.2.2
        rw [hsplit, ht0] at hct
        simp only [List.cons_append, List.cons.injEq] at hct
        rw [← hct.1,
          hhead p (prepare_ok_spec conf srv fl stdin [] p req0 t0 hprep).1]
    · intro req hmem
      rw [hrt] at hmem
      rcases create_mem conf srv fl stdin [] _ hmem with hpre |
        ⟨p, req0, t, hp, hrest⟩
      · have := prepare_calls conf srv fl stdin [] _ hpre
        simp [Call.stage] at this
      · rcases hrest with hsub | ⟨n, hgi⟩
        · obtain ⟨s, hs⟩ := submit_req conf srv fl p req0 "" {} req (Or.inr hsub)
          have hname := (prepare_ok_spec conf srv fl stdin [] p req0 t hp).2.2.1
          have hpa := (prepare_ok_spec conf srv fl stdin [] p req0 t hp).1
          rw [hfe, hparse] at hpa
          cases hpa
          rw [hs]
          exact hname
        · simp at hgi

/-- Witness for C8 at concrete inputs: both branches of the
zero-argument behavior. -/
theorem C8_zero_args_witness :
    run conf0 srv0 {} none [] = (.ok none, [], []) ∧
    parseArgs conf0 true [] =
      .ok { remote := "local", name := "", iremote := "", image := "" } :=
  ⟨(C8_zero_args conf0 srv0 {} none).1 rfl,
   ((C8_zero_args conf0 srv0 { empty := true } none).2 rfl).1⟩

/-! ## C9: the post-creation check is best-effort -/

/-- The post-creation instance fetch appears in the trace only when
`create` has already succeeded. -/
theorem create_getInstance_ok (conf : Config) (srv : Srv) (fl : Flags)
    (stdin : Option (Except Err InstancePut)) (args : List String)
    (n : String)
    (h : Call.getInstance n ∈ (create conf srv fl stdin args).2.1) :
    ∃ r, (create conf srv fl stdin args).1 = .ok r := by
  rcases create_mem conf srv fl stdin args _ h with hpre |
    ⟨p, req0, t, hp, hrest⟩
  · have := prepare_calls conf srv fl stdin args _ hpre
    simp [Call.stage] at this
  · rcases hrest with hsub | _
    · have := submit_calls conf srv fl p req0 _ hsub
      simp [Call.stage] at this
    · unfold create at h ⊢
      rw [hp] at h ⊢
      rcases hs : submit conf srv fl p req0 with ⟨res2, t2, m2⟩
      simp only [hs] at h ⊢
      cases res2 with
      | error e =>
        simp at h
        rcases h with h | h
        · have := prepare_calls conf srv fl stdin args _ (by rw [hp]; exact h)
          simp [Call.stage] at this
        · have := submit_calls conf srv fl p req0 _ (by rw [hs]; exact h)
          simp [Call.stage] at this
      | ok nm => exact ⟨nm, by simp⟩

/-- C9: the post-creation network check never fails the overall
operation: a failed instance fetch returns silently (no message); a
successful fetch prints the advisory block exactly when no expanded
device has type `nic`; and whenever the check runs (the instance fetch
is in the trace), `create` has returned success. -/
theorem C9_checkNetwork_best_effort (conf : Config) (srv : Srv) (fl : Flags)
    (stdin : Option (Except Err InstancePut)) (args : List String)
    (name : String) :
    (∀ e, srv.getInstance name = .error e →
      checkNetwork srv name = ([.getInstance name], [])) ∧
    (∀ inst, srv.getInstance name = .ok inst →
      ((inst.expandedDevices.any fun dv => dv.2.lookup "type" = some "nic") = false →
        checkNetwork srv name =
          ([.getInstance name],
           [.containerNoNetwork, .hintCreateNetwork, .hintAttachNetwork])) ∧
      ((inst.expandedDevices.any fun dv => dv.2.lookup "type" = some "nic") = true →
        checkNetwork srv name = ([.getInstance name], []))) ∧
    (∀ n, Call.getInstance n ∈ (create conf srv fl stdin args).2.1 →
      ∃ r, (create conf srv fl stdin args).1 = .ok r) := by
  refine ⟨?_, ?_, fun n h => create_getInstance_ok conf srv fl stdin args n h⟩
  · intro e he
    simp [checkNetwork, he]
  · intro inst hi
    constructor <;> intro hdev <;> simp [checkNetwork, hi, hdev]

/-- Witness for C9 at concrete inputs: a fetch with no nic device
prints the advisory; the concrete empty-instance run that reaches the
check returns success. -/
theorem C9_checkNetwork_best_effort_witness :
    checkNetwork srv0 "c1" =
      ([.getInstance "c1"],
       [.containerNoNetwork, .hintCreateNetwork, .hintAttachNetwork]) ∧
    (∃ r, (create conf0 srv0 { empty := true } none []).1 = .ok r) :=
  ⟨((C9_checkNetwork_best_effort conf0 srv0 { empty := true } none [] "c1").2.1
      ⟨[]⟩ rfl).1 rfl,
   (C9_checkNetwork_best_effort conf0 srv0 { empty := true } none [] "c1").2.2
     "c1" (by decide)⟩

/-! ## C10: container resources and the reported name -/

theorem except_match_ok {tr : Except Err String} {r : String} :
    ∀ (x : Except Err Unit),
      (match x with
       | .error e => (.error e : Except Err String)
       | .ok _ => tr) = .ok r → tr = .ok r := by
  intro x h
  cases x with
  | error e => simp at h
  | ok u => exact h

theorem trackOp_ok (srv : Srv) (op : Operation) (nm r : String)
    (hgt : srv.getTarget = .ok op)
    (h : trackOp srv nm = .ok r) : extractName op nm = .ok r := by
  unfold trackOp at h
  cases ha : srv.addHandler with
  | error e => simp [ha] at h
  | ok u1 =>
    simp only [ha] at h
    cases hw : srv.cancelableWait with
    | error e => simp [hw] at h
    | ok u2 =>
      simp only [hw, hgt] at h
      exact h

/-- A successful image/creation phase extracts its result from the
operation the creation call produced. -/
theorem submit_ok_extract (conf : Config) (srv : Srv) (fl : Flags)
    (p : ParsedNames) (req0 : InstancesPost) (op : Operation) (r : String)
    (hci : ∀ req, srv.createInstance req = .ok op)
    (hgt : srv.getTarget = .ok op)
    (hok : (submit conf srv fl p req0).1 = .ok r) :
    extractName op p.name = .ok r := by
  unfold submit at hok
  by_cases he : fl.empty
  · simp only [he, if_true, hci] at hok
    exact hok
  · simp only [he, if_false] at hok
    rcases hg : guessImage conf srv p.remote p.iremote p.image with
      ⟨⟨ir1, im1⟩, tg, mg⟩
    simp only [hg] at hok
    by_cases hir : ir1 = p.remote
    · simp only [hir, if_pos rfl] at hok
      by_cases hss : conf.protocol p.remote = "simplestreams"
      · simp only [hss, if_pos rfl] at hok
        exact trackOp_ok srv op p.name r hgt (except_match_ok _ hok)
      · simp only [if_neg hss] at hok
        cases hal : srv.getImageAlias p.remote (if im1 = "" then "default" else im1) with
        | ok al =>
          simp only [hal] at hok
          cases him : srv.getImage p.remote al.target with
          | error e => simp [him] at hok
          | ok img =>
            simp only [him] at hok
            exact trackOp_ok srv op p.name r hgt (except_match_ok _ hok)
        | error e1 =>
          simp only [hal] at hok
          cases him : srv.getImage p.remote
              (if im1 = "" then "default" else im1) with
          | error e => simp [him] at hok
          | ok img =>
            simp only [him] at hok
            exact trackOp_ok srv op p.name r hgt (except_match_ok _ hok)
    · simp only [if_neg hir] at hok
      cases hgs : srv.getImageServer ir1 with
      | error e => simp [hgs] at hok
      | ok u =>
        simp only [hgs] at hok
        by_cases hss : conf.protocol ir1 = "simplestreams"
        · simp only [hss, if_pos rfl] at hok
          exact trackOp_ok srv op p.name r hgt (except_match_ok _ hok)
        · simp only [if_neg hss] at hok
          cases hal : srv.getImageAlias ir1 (if im1 = "" then "default" else im1) with
          | ok al =>
            simp only [hal] at hok
            cases him : srv.getImage ir1 al.target with
            | error e => simp [him] at hok
            | ok img =>
              simp only [him] at hok
              exact trackOp_ok srv op p.name r hgt (except_match_ok _ hok)
          | error e1 =>
            simp only [hal] at hok
            cases him : srv.getImage ir1
                (if im1 = "" then "default" else im1) with
            | error e => simp [him] at hok
            | ok img =>
              simp only [him] at hok
              exact trackOp_ok srv op p.name r hgt (except_match_ok _ hok)

/-- A successful `create` decomposes into a successful preparation and
a successful image/creation phase. -/
theorem create_ok_split (conf : Config) (srv : Srv) (fl : Flags)
    (stdin : Option (Except Err InstancePut)) (args : List String)
    (r : String)
    (h : (create conf srv fl stdin args).1 = .ok r) :
    ∃ p req0 t, prepare conf srv fl stdin args = (.ok (p, req0), t) ∧
      (submit conf srv fl p req0).1 = .ok r := by
  unfold create at h
  rcases hp : prepare conf srv fl stdin args with ⟨res, t⟩
  simp only [hp] at h
  cases res with
  | error e => simp at h
  | ok pr =>
    rcases pr with ⟨p, req0⟩
    rcases hs : submit conf srv fl p req0 with ⟨res2, t2, m2⟩
    simp only [hs] at h
    cases res2 with
    | error e => simp at h
    | ok nm =>
      simp at h
      subst h
      exact ⟨p, req0, t, rfl, by rw [hs]⟩

/-- C10: when the creation operation completes with a resource map
lacking a `containers` entry (or holding an empty list), `create`
returns an error rather than success; when it lists exactly one
container and the user supplied no name, a successful `create` reports
the last slash-separated segment of the resource path. -/
theorem C10_containers (conf : Config) (srv : Srv) (fl : Flags)
    (stdin : Option (Except Err InstancePut)) (args : List String)
    (op : Operation)
    (hci : ∀ req, srv.createInstance req = .ok op)
    (hgt : srv.getTarget = .ok op) :
    ((op.resources.lookup "containers" = none ∨
      op.resources.lookup "containers" = some []) →
      ∃ e, (create conf srv fl stdin args).1 = .error e) ∧
    (∀ cpath p nm, op.resources.lookup "containers" = some [cpath] →
      parseArgs conf fl.empty args = .ok p → p.name = "" →
      (create conf srv fl stdin args).1 = .ok nm →
      nm = lastSeg cpath) := by
  constructor
  · intro hlook
    rcases hr : (create conf srv fl stdin args).1 with e | r
    · exact ⟨e, rfl⟩
    · exfalso
      obtain ⟨p, req0, t, hp, hsub⟩ :=
        create_ok_split conf srv fl stdin args r hr
      have hext := submit_ok_extract conf srv fl p req0 op r hci hgt hsub
      unfold extractName at hext
      rcases hlook with hl | hl <;> simp [hl] at hext
  · intro cpath p nm hlook hpa hname hok
    obtain ⟨p', req0, t, hp, hsub⟩ :=
      create_ok_split conf srv fl stdin args nm hok
    have hpa' := (prepare_ok_spec conf srv fl stdin args p' req0 t hp).1
    rw [hpa] at hpa'
    cases hpa'
    have hext := submit_ok_extract conf srv fl p req0 op nm hci hgt hsub
    unfold extractName at hext
    rw [hlook] at hext
    simp [hname] at hext
    exact hext.symm

/-- Operation of the C10 witness: exactly one container resource. -/
def opC10 : Operation := ⟨[("containers", ["/1.0/containers/abc"])]⟩

/-- Oracle of the C10 witness: creation yields `opC10`. -/
def srvC10 : Srv :=
  { srv0 with createInstance := fun _ => .ok opC10, getTarget := .ok opC10 }

/-- Operation and oracle of the C10 witness, no-containers side. -/
def srvC10b : Srv :=
  { srv0 with createInstance := fun _ => .ok ⟨[]⟩, getTarget := .ok ⟨[]⟩ }

/-- Witness for C10 at concrete inputs: the reported name is the last
path segment; a containers-less operation makes `create` fail. -/
theorem C10_containers_witness :
    "abc" = lastSeg "/1.0/containers/abc" ∧
    (∃ e, (create conf0 srvC10b { empty := true } none []).1 = .error e) :=
  ⟨(C10_containers conf0 srvC10 { empty := true } none [] opC10
      (fun _ => rfl) rfl).2 "/1.0/containers/abc"
      { remote := "local", name := "", iremote := "", image := "" } "abc"
      rfl rfl rfl (by rfl),
   (C10_containers conf0 srvC10b { empty := true } none [] ⟨[]⟩
      (fun _ => rfl) rfl).1 (Or.inl rfl)⟩

/-! ## C7: the simplestreams fast path -/

/-- If a creation-from-image call went to a streaming-catalog remote
`ir`, while the instance remote is not streaming-catalog, then the
image phase took the fast path: `ir` is the post-guess image remote,
the image metadata is public with fingerprint the post-guess
post-default token, the request records that token as its source
alias, and no alias or fingerprint lookup against `ir` occurs anywhere
in the phase. -/
theorem submit_ss (conf : Config) (srv : Srv) (fl : Flags)
    (p : ParsedNames) (req0 : InstancesPost) (ir : String) (img : Image)
    (req : InstancesPost)
    (he : fl.empty = false)
    (hss : conf.protocol ir = "simplestreams")
    (hpr : conf.protocol p.remote ≠ "simplestreams")
    (hmem : Call.createInstanceFromImage ir img req ∈ (submit conf srv fl p req0).2.1) :
    ir = (guessImage conf srv p.remote p.iremote p.image).1.1 ∧
    img = { fingerprint :=
              (if (guessImage conf srv p.remote p.iremote p.image).1.2 = ""
               then "default"
               else (guessImage conf srv p.remote p.iremote p.image).1.2),
            public := true } ∧
    req = { req0 with source := { req0.source with aliasName := img.fingerprint } } ∧
    (∀ x, Call.getImageAlias ir x ∉ (submit conf srv fl p req0).2.1 ∧
          Call.getImage ir x ∉ (submit conf srv fl p req0).2.1) := by
  have hirp : ir ≠ p.remote := fun hc => hpr (hc ▸ hss)
  unfold submit at hmem ⊢
  simp only [he, if_false] at hmem ⊢
  rcases hg : guessImage conf srv p.remote p.iremote p.image with
    ⟨⟨ir1, im1⟩, tg, mg⟩
  simp only [hg] at hmem ⊢
  have h3 := guessImage_calls conf srv p.remote p.iremote p.image
  rw [hg] at h3
  simp only at h3
  have hnotcifi : ∀ (a : String) (b : Image) (q : InstancesPost),
      Call.createInstanceFromImage a b q ∉ tg := by
    intro a b q hab
    rcases h3 with h | h | h <;> rw [h] at hab <;> simp at hab
  have hgalias : ∀ a b, Call.getImageAlias a b ∈ tg → a = p.remote := by
    intro a b hab
    rcases h3 with h | h | h
    · rw [h] at hab; simp at hab
    · rw [h] at hab; simp at hab; exact hab.1
    · rw [h] at hab; simp at hab; exact hab.1
  have hgimg : ∀ a b, Call.getImage a b ∈ tg → a = p.remote := by
    intro a b hab
    rcases h3 with h | h | h
    · rw [h] at hab; simp at hab
    · rw [h] at hab; simp at hab
    · rw [h] at hab; simp at hab; exact hab.1
  by_cases hir : ir1 = p.remote
  · simp only [hir, if_pos rfl] at hmem ⊢
    by_cases hss2 : conf.protocol p.remote = "simplestreams"
    · exact absurd hss2 hpr
    · simp only [if_neg hss2] at hmem ⊢
      exfalso
      cases hal : srv.getImageAlias p.remote (if im1 = "" then "default" else im1) with
      | ok al =>
        simp only [hal] at hmem
        cases him : srv.getImage p.remote al.target with
        | error e =>
          simp only [him] at hmem
          simp at hmem
          exact hnotcifi _ _ _ hmem
        | ok img2 =>
          simp only [him] at hmem
          simp at hmem
          rcases hmem with hmem | hmem
          · exact hnotcifi _ _ _ hmem
          · exact hirp hmem.1
      | error e1 =>
        simp only [hal] at hmem
        cases him : srv.getImage p.remote
            (if im1 = "" then "default" else im1) with
        | error e =>
          simp only [him] at hmem
          simp at hmem
          exact hnotcifi _ _ _ hmem
        | ok img2 =>
          simp only [him] at hmem
          simp at hmem
          rcases hmem with hmem | hmem
          · exact hnotcifi _ _ _ hmem
          · exact hirp hmem.1
  · simp only [if_neg hir] at hmem ⊢
    cases hgs : srv.getImageServer ir1 with
    | error e =>
      exfalso
      simp only [hgs] at hmem
      simp at hmem
      exact hnotcifi _ _ _ hmem
    | ok u =>
      simp only [hgs] at hmem ⊢
      by_cases hss2 : conf.protocol ir1 = "simplestreams"
      · simp only [hss2, if_pos rfl] at hmem ⊢
        simp at hmem
        rcases hmem with hmem | hmem
        · exact absurd hmem (hnotcifi _ _ _)
        · obtain ⟨hm1, hm2, hm3⟩ := hmem
          subst hm1
          refine ⟨rfl, by rw [hm2], by rw [hm3, hm2], ?_⟩
          intro x
          constructor
          · intro hx
            simp at hx
            exact hirp (hgalias _ _ hx)
          · intro hx
            simp at hx
            exact hirp (hgimg _ _ hx)
      · exfalso
        simp only [if_neg hss2] at hmem
        cases hal : srv.getImageAlias ir1 (if im1 = "" then "default" else im1) with
        | ok al =>
          simp only [hal] at hmem
          cases him : srv.getImage ir1 al.target with
          | error e =>
            simp only [him] at hmem
            simp at hmem
            exact hnotcifi _ _ _ hmem
          | ok img2 =>
            simp only [him] at hmem
            simp at hmem
            rcases hmem with hmem | hmem
            · exact hnotcifi _ _ _ hmem
            · exact hss2 (hmem.1 ▸ hss)
        | error e1 =>
          simp only [hal] at hmem
          cases him : srv.getImage ir1
              (if im1 = "" then "default" else im1) with
          | error e =>
            simp only [him] at hmem
            simp at hmem
            exact hnotcifi _ _ _ hmem
          | ok img2 =>
            simp only [him] at hmem
            simp at hmem
            rcases hmem with hmem | hmem
            · exact hnotcifi _ _ _ hmem
            · exact hss2 (hmem.1 ▸ hss)

/-- C7: for a non-empty-instance invocation whose effective
(post-guess) image remote uses the streaming-catalog (simplestreams)
protocol, no alias or fingerprint lookup is performed against that
image server anywhere in the workflow; the image metadata passed to
the creation call is public with fingerprint equal to the post-guess,
post-default image token, and the request's source alias is set to
that same token. -/
theorem C7_simplestreams_fast_path (conf : Config) (srv : Srv) (fl : Flags)
    (stdin : Option (Except Err InstancePut)) (args : List String)
    (p : ParsedNames) (ir : String) (img : Image) (req : InstancesPost)
    (he : fl.empty = false)
    (hpa : parseArgs conf fl.empty args = .ok p)
    (hss : conf.protocol ir = "simplestreams")
    (hmem : Call.createInstanceFromImage ir img req ∈
      (create conf srv fl stdin args).2.1) :
    img.public = true ∧
    img.fingerprint =
      (if (guessImage conf srv p.remote p.iremote p.image).1.2 = ""
       then "default"
       else (guessImage conf srv p.remote p.iremote p.image).1.2) ∧
    req.source.aliasName = img.fingerprint ∧
    (∀ x, Call.getImageAlias ir x ∉ (create conf srv fl stdin args).2.1 ∧
          Call.getImage ir x ∉ (create conf srv fl stdin args).2.1) := by
  rcases create_mem conf srv fl stdin args _ hmem with hpre |
    ⟨p', req0, t, hp, hrest⟩
  · have := prepare_calls conf srv fl stdin args _ hpre
    simp [Call.stage] at this
  · rcases hrest with hsub | ⟨n, hgi⟩
    · have hspec := prepare_ok_spec conf srv fl stdin args p' req0 t hp
      have hp'eq : p' = p := by
        have h := hspec.1
        rw [hpa] at h
        cases h
        rfl
      subst hp'eq
      have hpr := hspec.2.1
      obtain ⟨h1, h2, h3, h4⟩ :=
        submit_ss conf srv fl p' req0 ir img req he hss hpr hsub
      refine ⟨by rw [h2], by rw [h2], by rw [h3], ?_⟩
      intro x
      constructor
      · intro hx
        rcases create_mem conf srv fl stdin args _ hx with hxp |
          ⟨p'', req0'', t'', hp'', hx'⟩
        · have := prepare_calls conf srv fl stdin args _ hxp
          simp [Call.stage] at this
        · have hdet : p'' = p' ∧ req0'' = req0 := by
            rw [hp] at hp''
            injection hp'' with hp1 hp2
            injection hp1 with hp3
            exact ⟨(Prod.mk.injEq _ _ _ _ ▸ hp3).1.symm,
                   (Prod.mk.injEq _ _ _ _ ▸ hp3).2.symm⟩
          rcases hx' with hx' | ⟨m, hm⟩
          · rw [hdet.1, hdet.2] at hx'
            exact (h4 x).1 hx'
          · simp at hm
      · intro hx
        rcases create_mem conf srv fl stdin args _ hx with hxp |
          ⟨p'', req0'', t'', hp'', hx'⟩
        · have := prepare_calls conf srv fl stdin args _ hxp
          simp [Call.stage] at this
        · have hdet : p'' = p' ∧ req0'' = req0 := by
            rw [hp] at hp''
            injection hp'' with hp1 hp2
            injection hp1 with hp3
            exact ⟨(Prod.mk.injEq _ _ _ _ ▸ hp3).1.symm,
                   (Prod.mk.injEq _ _ _ _ ▸ hp3).2.symm⟩
          rcases hx' with hx' | ⟨m, hm⟩
          · rw [hdet.1, hdet.2] at hx'
            exact (h4 x).2 hx'
          · simp at hm
    · simp at hgi

/-- Names parsed in the C7 witness run. -/
def pC7 : ParsedNames :=
  { remote := "local", name := "", iremote := "local", image := "images/alpine" }

/-- Image metadata built by the C7 witness run. -/
def imgC7 : Image := { fingerprint := "alpine", public := true }

/-- Request submitted by the C7 witness run. -/
def reqC7 : InstancesPost := { source := { aliasName := "alpine" } }

/-- Witness for C7 at a concrete input: the token `images/alpine`
reinterpreted onto the streaming-catalog remote `images`. -/
theorem C7_simplestreams_fast_path_witness :
    imgC7.public = true ∧
    imgC7.fingerprint =
      (if (guessImage conf0 srv0 pC7.remote pC7.iremote pC7.image).1.2 = ""
       then "default"
       else (guessImage conf0 srv0 pC7.remote pC7.iremote pC7.image).1.2) ∧
    reqC7.source.aliasName = imgC7.fingerprint ∧
    (∀ x, Call.getImageAlias "images" x ∉
            (create conf0 srv0 {} none ["images/alpine"]).2.1 ∧
          Call.getImage "images" x ∉
            (create conf0 srv0 {} none ["images/alpine"]).2.1) :=
  C7_simplestreams_fast_path conf0 srv0 {} none ["images/alpine"] pC7 "images"
    imgC7 reqC7 rfl rfl (by decide) (by decide)

end LxcInit
